import Mathlib

/-!
Verification of the Weekly Availability Schedule Engine
(`src/components/ui/form/Schedule.tsx` of enochN/calendso).

Shallow embedding conventions:
* A dayjs instant is modelled as a natural number of milliseconds since the
  start of the reference day (dayjs works at millisecond precision; all
  values handled by the component are times of day on one calendar day).
  Addition may cross midnight, exactly as `dayjs.add` does.
* `t.isBefore(u)` is `t < u`, `t.isAfter(u)` is `u < t` (strict, as dayjs).
* `t.endOf("day")` is the last millisecond of the calendar day containing
  `t`: `23:59:59.999` of that day.
* JavaScript exceptions are modelled with `Except`.
-/

namespace Calendso

/-- Milliseconds in a calendar day. -/
def msPerDay : Nat := 86400000

/-- `t.endOf("day")`: the last millisecond (`23:59:59.999`) of the calendar
day that contains the instant `t`. -/
def endOfDayOf (t : Nat) : Nat := t / msPerDay * msPerDay + (msPerDay - 1)

/-- `TimeRange` from Schedule.tsx: `{ start: Dayjs; end: Dayjs }`.
The source's field `end` is a Lean keyword, so it is named `stop` here. -/
structure TimeRange where
  start : Nat
  stop : Nat
deriving DecidableEq, Repr

/-- `const increment = 15` (minutes), Schedule.tsx line 18. -/
def increment : Nat := 15

/-- The `while (t.isBefore(end)) { times.push(t); t = t.add(increment, "minutes") }`
loop of the `TIMES` initializer (lines 24–34), with an explicit fuel bound on
the iteration count; `timesLoop_fuel_stable` shows the fuel is not binding. -/
def timesLoop : Nat → Nat → List Nat
  | 0, _ => []
  | fuel + 1, t =>
    if t < msPerDay - 1 then t :: timesLoop fuel (t + increment * 60000)
    else []

/-- `TIMES`: the module-level catalog of selectable times, starting at
`startOfDay` = `00:00:00.000` = `0`. -/
def TIMES : List Nat := timesLoop 100 0

/-- `defaultDayRange` (lines 37–40): 09:00:00 to 17:00:00. -/
def defaultDayRange : TimeRange := ⟨32400000, 61200000⟩

/-- JavaScript runtime errors reachable in the embedded code. -/
inductive JsError where
  | typeError
deriving DecidableEq, Repr

/-- `handleAppend` (lines 135–147).  `fields[fields.length - 1]` on an empty
array is `undefined`, and reading `.end` from it throws a `TypeError`; on a
non-empty array it is the last element.  The candidate range starts at the
last range's end and ends one hour later; if that end `isAfter` the end of
`nextRangeStart`'s day the handler returns without appending. -/
def handleAppend (fields : List TimeRange) : Except JsError (List TimeRange) :=
  match fields.getLast? with
  | none => Except.error JsError.typeError
  | some lastField =>
    let nextRangeStart := lastField.stop
    let nextRange : TimeRange := ⟨nextRangeStart, nextRangeStart + 3600000⟩
    if endOfDayOf nextRangeStart < nextRange.stop then
      Except.ok fields
    else
      Except.ok (fields ++ [nextRange])

/-- The checkbox `onChange` of `ScheduleBlock` (line 156):
`e.target.checked ? replace([defaultDayRange]) : replace([])`.
`replace` discards the previous field-array contents wholesale, so the
result does not depend on the current bucket. -/
def scheduleBlockCheckboxChange (checked : Bool) (_bucket : List TimeRange) :
    List TimeRange :=
  if checked then [defaultDayRange] else []

/-- Enabling a day is the `checked = true` branch of the checkbox handler. -/
def enableDay (bucket : List TimeRange) : List TimeRange :=
  scheduleBlockCheckboxChange true bucket

/-- Disabling a day is the `checked = false` branch of the checkbox handler. -/
def disableDay (bucket : List TimeRange) : List TimeRange :=
  scheduleBlockCheckboxChange false bucket

/-! ### Reference semantics for `DEFAULT_SCHEDULE`

In JavaScript, `defaultDayRange` is a single object and the array literal
`DEFAULT_SCHEDULE = [[], [defaultDayRange], …, []]` stores the same
reference in each weekday bucket.  To reason about sharing we model the
module's object store explicitly: a heap of `TimeRange` objects addressed
by allocation index, with buckets holding references. -/

/-- A reference into the module's object heap. -/
abbrev Ref := Nat

/-- The heap of `TimeRange` objects; the address is the list index. -/
abbrev Heap := List TimeRange

/-- Reading the object a reference points to. -/
def Heap.deref (h : Heap) (r : Ref) : Option TimeRange := h.get? r

/-- In-place mutation `obj.start = v` of the object at reference `r`. -/
def Heap.writeStart : Heap → Ref → Nat → Heap
  | [], _, _ => []
  | o :: h, 0, v => ⟨v, o.stop⟩ :: h
  | o :: h, r + 1, v => o :: Heap.writeStart h r v

/-- The module initializer allocates exactly one `TimeRange` object,
`defaultDayRange`, at address 0. -/
def initHeap : Heap := [defaultDayRange]

/-- The reference to the single `defaultDayRange` allocation. -/
def defaultDayRangeRef : Ref := 0

/-- `DEFAULT_SCHEDULE` (lines 42–50): seven buckets; the five weekday
buckets each hold the same reference to the one `defaultDayRange` object. -/
def DEFAULT_SCHEDULE : List (List Ref) :=
  [[], [defaultDayRangeRef], [defaultDayRangeRef], [defaultDayRangeRef],
   [defaultDayRangeRef], [defaultDayRangeRef], []]

/-- The `TimeRange` values a bucket's references denote in a given heap:
what a consumer of `DEFAULT_SCHEDULE` observes as the bucket's contents. -/
def bucketContents (h : Heap) (bucket : List Ref) : List (Option TimeRange) :=
  bucket.map h.deref

/-! ### Range removal -/

/-- Error raised by out-of-bounds removal. -/
inductive RemoveError where
  | indexError
deriving DecidableEq, Repr

/-- Modelled from the spec: the removal operation `remove(index)` used by
`ScheduleBlock` (line 173) comes from the external form library
(react-hook-form's `useFieldArray`), whose code is not part of this
repository.  Per spec §4.3, `removeRangeAt(bucket, index)` removes the range
at the 0-based index and fails with `IndexError` if the index is out of
bounds. -/
def removeRangeAt (bucket : List TimeRange) (i : Nat) :
    Except RemoveError (List TimeRange) :=
  if i < bucket.length then Except.ok (bucket.eraseIdx i)
  else Except.error RemoveError.indexError

/-! ### Time formatting and strict parsing

`getOption` (lines 72–75) renders the machine value with
`dayjs(time).format("HH:mm:ss")`, and the select's `onChange`
(lines 96 and 112) reads it back with
`dayjs(option.value, "HH:mm:ss", true)` (strict parse). -/

/-- Two-digit zero-padded decimal rendering of a field value below 100,
as produced by the `HH`, `mm` and `ss` format tokens. -/
def pad2 (n : Nat) : List Char := [Nat.digitChar (n / 10), Nat.digitChar (n % 10)]

/-- Modelled from the spec: dayjs `.format("HH:mm:ss")` — an external
library call — renders the hour of day, minute and second of the instant,
each two-digit zero-padded, separated by colons (spec §3, §4.1:
canonical textual form `HH:mm:ss`, 24-hour, zero-padded). -/
def formatTime (t : Nat) : String :=
  String.mk (pad2 (t / 3600000 % 24) ++ ':' :: pad2 (t / 60000 % 60)
    ++ ':' :: pad2 (t / 1000 % 60))

/-- The numeric value of a decimal digit character, `none` otherwise. -/
def digitVal? (c : Char) : Option Nat :=
  if c.isDigit then some (c.toNat - 48) else none

/-- Modelled from the spec: dayjs strict parsing with format `"HH:mm:ss"` —
an external library call — accepts exactly two-digit hour, minute and
second separated by colons, with each field in range (spec §4.1: strict
parsing rejects any other format), and yields the corresponding instant of
the reference day. -/
def parseTime (s : String) : Option Nat :=
  match s.data with
  | [h1, h2, ':', m1, m2, ':', s1, s2] =>
    match digitVal? h1, digitVal? h2, digitVal? m1,
          digitVal? m2, digitVal? s1, digitVal? s2 with
    | some a, some b, some c, some d, some e, some f =>
      let hh := 10 * a + b
      let mm := 10 * c + d
      let ss := 10 * e + f
      if hh < 24 && mm < 60 && ss < 60 then
        some ((hh * 3600 + mm * 60 + ss) * 1000)
      else none
    | _, _, _, _, _, _ => none
  | _ => none

/-! ### Select options -/

/-- An entry of the `options` list fed to a `Select`.  The `label`
(line 74) is produced by `toLocaleTimeString`, an external locale
formatter with no semantic weight (spec §4.1: it must never be parsed
back), so only the machine `value` is modelled. -/
structure SelectOption where
  value : String
deriving DecidableEq, Repr

/-- `getOption` (lines 72–75): the machine value of a time option is the
strict `HH:mm:ss` rendering of the time. -/
def getOption (time : Nat) : SelectOption := ⟨formatTime time⟩

/-- The filter stage of `timeOptions` (lines 77–82):
`TIMES.filter((time) => (!limit || time.isBefore(limit)) && (!offset || time.isAfter(offset)))`.
An absent bound is `none` and leaves its conjunct true. -/
def timeOptionsTimes (limit offset : Option Nat) : List Nat :=
  TIMES.filter fun time =>
    (match limit with
     | none => true
     | some l => decide (time < l))
    &&
    (match offset with
     | none => true
     | some o => decide (o < time))

/-- `timeOptions` (lines 77–82): the filtered catalog mapped through
`getOption`. -/
def timeOptions (limit offset : Option Nat) : List SelectOption :=
  (timeOptionsTimes limit offset).map getOption

/-- The start-time select's `onFocus` (line 92):
`setOptions(timeOptions({ offset: value }))` — the `limit` bound is not
supplied. -/
def startSelectFocusOptions (value : Nat) : List SelectOption :=
  timeOptions none (some value)

/-- The end-time select's `onFocus` (line 108):
`setOptions(timeOptions({ offset: value }))` — `value` here is the end
field's own current value, and the `limit` bound is not supplied. -/
def endSelectFocusOptions (value : Nat) : List SelectOption :=
  timeOptions none (some value)

/-! ## Theorems -/

/-- The while loop terminates well before the fuel runs out: doubling the
fuel changes nothing, so `TIMES` is the full result of the source's
unbounded while loop. -/
theorem timesLoop_fuel_stable : timesLoop 100 0 = timesLoop 200 0 := by decide

/-- C1: on a non-empty bucket, `handleAppend` forms the candidate range
`{start := lastEnd, end := lastEnd + 60 min}`, and when that end is after
the end of `lastEnd`'s day the append is rejected: the handler returns with
the bucket completely unchanged and raises no error. -/
theorem handleAppend_overnight_reject
    (bucket : List TimeRange) (lastField : TimeRange)
    (hlast : bucket.getLast? = some lastField)
    (hover : endOfDayOf lastField.stop < lastField.stop + 3600000) :
    handleAppend bucket = Except.ok bucket := by
  unfold handleAppend
  rw [hlast]
  simp only [if_pos hover]

/-- C1 witness: on the bucket `[{23:30, 23:45}]`, the candidate end
`23:45 + 60 min = 00:45 next day` exceeds end-of-day, so the bucket is
returned unchanged. -/
theorem handleAppend_overnight_reject_witness :
    handleAppend [⟨84600000, 85500000⟩] = Except.ok [⟨84600000, 85500000⟩] :=
  handleAppend_overnight_reject _ _ rfl (by decide)

/-- C2: on a non-empty bucket whose last range ends early enough that
adding 60 minutes stays within the day, `handleAppend` appends exactly the
range `{start := lastEnd, end := lastEnd + 60 min}` at the end of the
sequence, leaving all existing ranges unchanged. -/
theorem handleAppend_extends
    (bucket : List TimeRange) (lastField : TimeRange)
    (hlast : bucket.getLast? = some lastField)
    (hin : lastField.stop + 3600000 ≤ endOfDayOf lastField.stop) :
    handleAppend bucket =
      Except.ok (bucket ++ [⟨lastField.stop, lastField.stop + 3600000⟩]) := by
  unfold handleAppend
  rw [hlast]
  simp only [if_neg (Nat.not_lt.mpr hin)]

/-- C2 witness: on the bucket `[{09:00, 17:00}]`, `handleAppend` yields
`[{09:00, 17:00}, {17:00, 18:00}]`. -/
theorem handleAppend_extends_witness :
    handleAppend [⟨32400000, 61200000⟩] =
      Except.ok [⟨32400000, 61200000⟩, ⟨61200000, 64800000⟩] :=
  handleAppend_extends [⟨32400000, 61200000⟩] ⟨32400000, 61200000⟩ rfl (by decide)

/-- C3 counterexample: `handleAppend` on the empty bucket is not a silent
no-op — `fields[fields.length - 1]` is `undefined` and reading `.end` from
it throws a `TypeError`, so the handler does not return the unchanged
empty bucket. -/
theorem handleAppend_empty_counterexample :
    handleAppend ([] : List TimeRange) = Except.error JsError.typeError ∧
    handleAppend ([] : List TimeRange) ≠ Except.ok [] :=
  ⟨rfl, fun h => Except.noConfusion h⟩

/-- C3 amended: `handleAppend` on an empty bucket raises a `TypeError`
(reading `.end` of the `undefined` last element) instead of silently
returning the bucket; the UI avoids reaching this state by hiding the
append button whenever the bucket is empty (line 184). -/
theorem handleAppend_empty_throws :
    handleAppend ([] : List TimeRange) = Except.error JsError.typeError := rfl

/-- C7: the catalog built from `00:00:00` by repeatedly adding 15 minutes
while strictly before end-of-day has exactly 96 elements, the first being
`00:00:00` (= 0 ms) and the last `23:45:00` (= 85500000 ms), strictly
increasing with a fixed 15-minute (900000 ms) spacing between consecutive
elements. -/
theorem TIMES_catalog_spec :
    TIMES.length = 96 ∧ TIMES.head? = some 0 ∧
    TIMES.getLast? = some 85500000 ∧
    ∀ i, i < 95 → TIMES[i]! < TIMES[i + 1]! ∧
      TIMES[i + 1]! = TIMES[i]! + 900000 := by decide

/-- C7 witness: the adjacency clause at the first consecutive pair —
`TIMES[0] = 00:00:00` is strictly below `TIMES[1] = 00:15:00`, which sits
exactly 15 minutes later. -/
theorem TIMES_catalog_spec_witness :
    TIMES[0]! < TIMES[1]! ∧ TIMES[1]! = TIMES[0]! + 900000 :=
  TIMES_catalog_spec.2.2.2 0 (by decide)

/-- C4 counterexample: buckets 1 and 2 of `DEFAULT_SCHEDULE` hold the same
reference to the single `defaultDayRange` allocation, so the in-place
mutation `start := 10:00:00` performed through bucket 1's range reference
changes what bucket 2's contents read back — the seed range is shared by
reference, not independently copied. -/
theorem DEFAULT_SCHEDULE_sharing_counterexample :
    DEFAULT_SCHEDULE.get? 1 = some [defaultDayRangeRef] ∧
    DEFAULT_SCHEDULE.get? 2 = some [defaultDayRangeRef] ∧
    bucketContents initHeap [defaultDayRangeRef] =
      [some ⟨32400000, 61200000⟩] ∧
    bucketContents (initHeap.writeStart defaultDayRangeRef 36000000)
        [defaultDayRangeRef] = [some ⟨36000000, 61200000⟩] ∧
    bucketContents (initHeap.writeStart defaultDayRangeRef 36000000)
        [defaultDayRangeRef] ≠
      bucketContents initHeap [defaultDayRangeRef] := by
  refine ⟨rfl, rfl, rfl, rfl, ?_⟩
  decide

/-- C4 amended: the default weekly schedule has buckets 0 and 6 empty and
buckets 1 through 5 each containing exactly one range reading
`{09:00:00, 17:00:00}`; however the five weekday buckets all hold the very
same reference to the one `defaultDayRange` object, so an in-place mutation
of bucket 1's range is observed through bucket 2 as well. -/
theorem DEFAULT_SCHEDULE_structure :
    DEFAULT_SCHEDULE.length = 7 ∧
    DEFAULT_SCHEDULE.get? 0 = some [] ∧
    DEFAULT_SCHEDULE.get? 6 = some [] ∧
    DEFAULT_SCHEDULE.get? 1 = some [defaultDayRangeRef] ∧
    DEFAULT_SCHEDULE.get? 2 = some [defaultDayRangeRef] ∧
    DEFAULT_SCHEDULE.get? 3 = some [defaultDayRangeRef] ∧
    DEFAULT_SCHEDULE.get? 4 = some [defaultDayRangeRef] ∧
    DEFAULT_SCHEDULE.get? 5 = some [defaultDayRangeRef] ∧
    initHeap.deref defaultDayRangeRef = some ⟨32400000, 61200000⟩ ∧
    bucketContents (initHeap.writeStart defaultDayRangeRef 36000000)
        [defaultDayRangeRef] ≠
      bucketContents initHeap [defaultDayRangeRef] := by
  refine ⟨rfl, rfl, rfl, rfl, rfl, rfl, rfl, rfl, rfl, ?_⟩
  decide

/-- C5 counterexample: `enableDay` is not a no-op on an already-enabled
bucket — on the two-range bucket `[{09:00, 17:00}, {17:00, 18:00}]` the
checkbox's checked branch runs `replace([defaultDayRange])`, collapsing the
bucket to the single default range. -/
theorem enableDay_counterexample :
    enableDay [⟨32400000, 61200000⟩, ⟨61200000, 64800000⟩] ≠
      [⟨32400000, 61200000⟩, ⟨61200000, 64800000⟩] := by decide

/-- C5 amended: `enableDay` unconditionally replaces the bucket with the
single default range, so on a disabled (empty) bucket it yields exactly
`[{09:00:00, 17:00:00}]`, but on an already-enabled bucket it is a no-op
only when that bucket already equals `[{09:00:00, 17:00:00}]` — any other
contents are discarded; `disableDay` yields the empty sequence from any
bucket; both operations are idempotent under repeated application. -/
theorem enableDay_disableDay_spec :
    ∀ bucket : List TimeRange,
      enableDay bucket = [defaultDayRange] ∧
      disableDay bucket = [] ∧
      enableDay (enableDay bucket) = enableDay bucket ∧
      disableDay (disableDay bucket) = disableDay bucket ∧
      enableDay [] = [⟨32400000, 61200000⟩] :=
  fun _ => ⟨rfl, rfl, rfl, rfl, rfl⟩

/-- C6: `removeRangeAt` with a valid 0-based index removes exactly the
range at that index — the result is the prefix before the index followed by
the suffix after it, so the remaining ranges keep their relative order and
the length drops by exactly 1; with an out-of-bounds index it raises
`IndexError`. -/
theorem removeRangeAt_spec (bucket : List TimeRange) (i : Nat) :
    (i < bucket.length →
      removeRangeAt bucket i =
        Except.ok (bucket.take i ++ bucket.drop (i + 1)) ∧
      (bucket.take i ++ bucket.drop (i + 1)).length + 1 = bucket.length) ∧
    (bucket.length ≤ i →
      removeRangeAt bucket i = Except.error RemoveError.indexError) := by
  constructor
  · intro h
    constructor
    · unfold removeRangeAt
      rw [if_pos h, List.eraseIdx_eq_take_drop_succ]
    · rw [← List.eraseIdx_eq_take_drop_succ, List.length_eraseIdx_add_one h]
  · intro h
    unfold removeRangeAt
    rw [if_neg (Nat.not_lt.mpr h)]

/-- C6 witness: removing index 1 from a three-range bucket drops exactly
the middle range and keeps the outer two in order; removing from the empty
bucket raises `IndexError`. -/
theorem removeRangeAt_spec_witness :
    removeRangeAt [⟨1, 2⟩, ⟨3, 4⟩, ⟨5, 6⟩] 1 = Except.ok [⟨1, 2⟩, ⟨5, 6⟩] ∧
    removeRangeAt ([] : List TimeRange) 0 =
      Except.error RemoveError.indexError :=
  ⟨((removeRangeAt_spec [⟨1, 2⟩, ⟨3, 4⟩, ⟨5, 6⟩] 1).1 (by decide)).1,
    (removeRangeAt_spec [] 0).2 (by decide)⟩

/-- C8: the filter stage of `timeOptions` returns the subsequence of the
catalog consisting of exactly the elements strictly before the `limit`
bound and strictly after the `offset` bound, each bound applied
independently when present; with both bounds omitted it returns the full
catalog; filtering after `09:00:00` admits no element `≤ 09:00:00` and
filtering before `17:00:00` admits no element `≥ 17:00:00`. -/
theorem timeOptions_filter_spec :
    (∀ limit offset : Option Nat,
      (timeOptionsTimes limit offset).Sublist TIMES) ∧
    (∀ (limit offset : Option Nat) (t : Nat),
      t ∈ timeOptionsTimes limit offset ↔
        t ∈ TIMES ∧ (∀ l, limit = some l → t < l) ∧
          (∀ o, offset = some o → o < t)) ∧
    timeOptionsTimes none none = TIMES ∧
    (∀ t, t ∈ timeOptionsTimes none (some 32400000) → ¬ t ≤ 32400000) ∧
    (∀ t, t ∈ timeOptionsTimes (some 61200000) none → ¬ 61200000 ≤ t) := by
  have hmem : ∀ (limit offset : Option Nat) (t : Nat),
      t ∈ timeOptionsTimes limit offset ↔
        t ∈ TIMES ∧ (∀ l, limit = some l → t < l) ∧
          (∀ o, offset = some o → o < t) := by
    intro limit offset t
    cases limit <;> cases offset <;>
      simp [timeOptionsTimes, List.mem_filter]
  refine ⟨fun _ _ => List.filter_sublist _, hmem, ?_, ?_, ?_⟩
  · simp [timeOptionsTimes]
  · intro t ht
    exact Nat.not_le.mpr (((hmem none (some 32400000) t).mp ht).2.2
      32400000 rfl)
  · intro t ht
    exact Nat.not_le.mpr (((hmem (some 61200000) none t).mp ht).2.1
      61200000 rfl)

/-- C8 witness: `09:00:00` itself is not admitted when filtering strictly
after `09:00:00`. -/
theorem timeOptions_filter_spec_witness :
    ¬ (32400000 ∈ timeOptionsTimes none (some 32400000)) :=
  fun h => timeOptions_filter_spec.2.2.2.1 32400000 h (le_refl 32400000)

/-- C10: both the start-time and the end-time select populate their options
on focus as the catalog filtered strictly after that select's own current
value, with no `limit` (upper) bound applied by either caller; hence every
catalog element above the select's own value is offered (the limit branch
cuts nothing), and the end select with current value `17:00:00` offers
`17:15:00` but not `09:15:00` — its options are bounded below by its own
end value, not by the range's start. -/
theorem selectFocusOptions_spec :
    ∀ value : Nat,
      startSelectFocusOptions value =
        (TIMES.filter fun time => decide (value < time)).map getOption ∧
      endSelectFocusOptions value =
        (TIMES.filter fun time => decide (value < time)).map getOption ∧
      (∀ time, time ∈ TIMES → value < time →
        getOption time ∈ endSelectFocusOptions value) ∧
      getOption 62100000 ∈ endSelectFocusOptions 61200000 ∧
      getOption 33300000 ∉ endSelectFocusOptions 61200000 := by
  intro value
  have heq : timeOptionsTimes none (some value) =
      TIMES.filter fun time => decide (value < time) := by
    simp [timeOptionsTimes]
  refine ⟨?_, ?_, ?_, ?_, ?_⟩
  · simp [startSelectFocusOptions, timeOptions, heq]
  · simp [endSelectFocusOptions, timeOptions, heq]
  · intro time ht hv
    refine List.mem_map_of_mem getOption ?_
    rw [timeOptionsTimes, List.mem_filter]
    exact ⟨ht, by simp [hv]⟩
  · decide
  · decide

/-- C10 witness: the end-time select whose current value is `17:00:00`
offers `17:15:00`, a catalog element above its own value. -/
theorem selectFocusOptions_spec_witness :
    getOption 62100000 ∈ endSelectFocusOptions 61200000 :=
  (selectFocusOptions_spec 61200000).2.2.1 62100000 (by decide) (by decide)

/-- A decimal digit below 10 parses back to itself. -/
theorem digitVal?_digitChar (d : Nat) (hd : d < 10) :
    digitVal? (Nat.digitChar d) = some d := by
  interval_cases d <;> decide

/-- Strict parsing of a rendered `HH:mm:ss` triple of in-range fields
recovers the encoded instant. -/
theorem parseTime_format_fields (hh mm ss : Nat)
    (h1 : hh < 24) (h2 : mm < 60) (h3 : ss < 60) :
    parseTime (String.mk (pad2 hh ++ ':' :: pad2 mm ++ ':' :: pad2 ss)) =
      some ((hh * 3600 + mm * 60 + ss) * 1000) := by
  have ha : hh / 10 < 10 := by omega
  have hb : hh % 10 < 10 := by omega
  have hc : mm / 10 < 10 := by omega
  have hd : mm % 10 < 10 := by omega
  have he : ss / 10 < 10 := by omega
  have hf : ss % 10 < 10 := by omega
  unfold pad2
  simp only [List.cons_append, List.nil_append]
  unfold parseTime
  simp only [digitVal?_digitChar _ ha, digitVal?_digitChar _ hb,
    digitVal?_digitChar _ hc, digitVal?_digitChar _ hd,
    digitVal?_digitChar _ he, digitVal?_digitChar _ hf]
  have e1 : 10 * (hh / 10) + hh % 10 = hh := by omega
  have e2 : 10 * (mm / 10) + mm % 10 = mm := by omega
  have e3 : 10 * (ss / 10) + ss % 10 = ss := by omega
  rw [e1, e2, e3]
  rw [if_pos]
  simp [h1, h2, h3]

/-- C9: for every valid `TimeOfDay` — an instant within the day at second
precision (whole milliseconds of the day, divisible by 1000) — strictly
parsing the `HH:mm:ss` text produced by formatting yields the value back:
`parse(format(t), strict) == t`. -/
theorem parse_format_roundtrip (t : Nat) (ht : t < 86400000)
    (hsec : t % 1000 = 0) :
    parseTime (formatTime t) = some t := by
  have h24 : t / 3600000 % 24 = t / 3600000 := Nat.mod_eq_of_lt (by omega)
  have hmain := parseTime_format_fields (t / 3600000) (t / 60000 % 60)
    (t / 1000 % 60) (by omega) (by omega) (by omega)
  unfold formatTime
  rw [h24, hmain]
  congr 1
  omega

/-- C9 witness: `17:00:00` (= 61200000 ms) formats to `"17:00:00"` and
strictly parses back to itself. -/
theorem parse_format_roundtrip_witness :
    parseTime (formatTime 61200000) = some 61200000 :=
  parse_format_roundtrip 61200000 (by decide) (by decide)

end Calendso
